import Mathlib

/-!
Verification of the login / transport layer of `pycloudmusic` (music163.py)
against its natural-language specification.

The Python source is shallowly embedded: parsed JSON values become `JVal`,
Python exceptions become the `PyExc` inductive, fallible code returns
`Except PyExc _`, and the network is an explicit oracle (a function from the
global request index and the posted form data to a transport outcome), so
every run of the embedded code is a pure computation.
-/

namespace Pycloudmusic

/-- A parsed JSON value, as produced by `req.json()` in the source. -/
inductive JVal where
  | jnull
  | jint (n : Int)
  | jstr (s : String)
  | jbool (b : Bool)
  | jarr (xs : List JVal)
  | jobj (fields : List (String × JVal))

/-- The Python exceptions that the embedded code can raise.
`music163BadCode`, `cannotConnectApi` and `music163BadData` are the library's
error classes (`pycloudmusic/error.py`); `keyError` / `typeError` are the
builtins raised by dict indexing and by `list()` on a non-iterable;
`netError` stands for any exception thrown by the HTTP library itself.
`cannotConnectApi` is built in the source from an f-string interpolating the
request path and the stringified last error; it is modelled structurally as
carrying those two values. -/
inductive PyExc where
  | music163BadCode (data : JVal)
  | cannotConnectApi (url : String) (cause : PyExc)
  | music163BadData (data : JVal)
  | keyError (key : String)
  | typeError
  | netError (msg : String)

/-- First binding of a key in an association list (parsed JSON objects have
distinct keys, so first-wins agrees with Python's dict). -/
def jlookup : List (String × JVal) → String → Option JVal
  | [], _ => none
  | (k, v) :: rest, key => if k = key then some v else jlookup rest key

/-- Python subscription `d[key]` on a parsed JSON value: `KeyError` when the
key is absent, `TypeError` when the value is not an object. -/
def getItem : JVal → String → Except PyExc JVal
  | .jobj fields, key =>
      match jlookup fields key with
      | some v => .ok v
      | none => .error (.keyError key)
  | _, _ => .error .typeError

/-- Python `==` between a JSON value and an int literal (used by
`data["code"] in [200, 803]`): true only for an equal integer. -/
def pyEqInt : JVal → Int → Bool
  | .jint m, n => m = n
  | _, _ => false

/-- Python `v is None`. -/
def isJNull : JVal → Bool
  | .jnull => true
  | _ => false

/-! ### `LoginMusic163._SimpleCookieToCookieStr` (music163.py lines 302-312) -/

/-- Python `str.lstrip(chars)`: remove leading characters as long as they
belong to the given character set. -/
def pyLstrip (chars : List Char) : List Char → List Char
  | [] => []
  | c :: cs => if c ∈ chars then pyLstrip chars cs else c :: cs

/-- Python `s.split(sep, maxsplit=1)[0]`: the part of `s` before the first
occurrence of `sep` (the whole of `s` when `sep` does not occur). -/
def splitFirst (sep : List Char) : List Char → List Char
  | [] => []
  | c :: cs => if sep.isPrefixOf (c :: cs) then [] else c :: splitFirst sep cs

/-- The argument of the source's `lstrip("Set-Cookie: ")`, as a character set. -/
def setCookieChars : List Char := "Set-Cookie: ".toList

/-- The cleaning applied to one rendered cookie morsel:
`str(item).lstrip("Set-Cookie: ").split("; ", maxsplit=1)[0]`. -/
def cleanFragment (s : String) : String :=
  String.mk (splitFirst "; ".toList (pyLstrip setCookieChars s.toList))

/-- `LoginMusic163._SimpleCookieToCookieStr`: fold over the rendered cookie
morsels, accumulating `f"{cookie_str}{cookie_data}; "`. Each element of the
input list is one `str(Morsel)` rendering (of the form
`Set-Cookie: name=value; attributes`). -/
def simpleCookieToCookieStr (cookies : List String) : String :=
  cookies.foldl (fun acc item => acc ++ cleanFragment item ++ "; ") ""

/-! ### The body of `LoginMusic163._login`'s `try` block (lines 320-333) -/

/-- What one HTTP POST of `_login` yields: a parsed JSON body together with
the response's cookie morsels (already rendered as `str(Morsel)` strings). -/
structure RespData where
  json : JVal
  cookies : List String

/-- Outcome of one attempt's network interaction, decided by the environment:
either the request and `req.json()` both succeed, or some exception is thrown
before the parsed body is bound. -/
inductive TransportResult where
  | ok (r : RespData)
  | exn (e : PyExc)

/-- The `try` body of `_login` for one attempt: on a parsed response, read
`data["code"]`; if the code is not in `[200, 803]` raise
`Music163BadCode(data)`; otherwise return
`self._SimpleCookieToCookieStr(req.cookies)`. -/
def loginTryBody : TransportResult → Except PyExc String
  | .exn e => .error e
  | .ok r =>
      match getItem r.json "code" with
      | .error e => .error e
      | .ok code =>
          if pyEqInt code 200 || pyEqInt code 803 then
            .ok (simpleCookieToCookieStr r.cookies)
          else
            .error (.music163BadCode r.json)

/-! ### `LoginMusic163._login` (lines 314-340)

The environment (network) is an oracle `env : Nat → JVal → TransportResult`
mapping the global request index and the posted form data to the outcome of
that HTTP POST. The retry handler is the source's
`except Exception or not Music163BadCode`, which evaluates to
`except Exception` (settled separately below), so every error of the try body
reaches the handler. Note the source rebinds its `data` parameter to the
parsed response (`data = await req.json(...)`) before any bad-code raise, so
a retry after a bad code re-posts the previous parsed body as form data. -/

/-- The value bound to the local `data` after one attempt: the parsed
response when `req.json()` succeeded (the source rebinds `data`), otherwise
still the incoming form data. -/
def dataAfter (data : JVal) : TransportResult → JVal
  | .ok r => r.json
  | .exn _ => data

/-- `LoginMusic163._login`, instrumented with the list of global request
indices it consumes (one per HTTP attempt, in order). `off` is the global
index of the next request; `cnt` is the source's `reconnection_count`, and
`R` is the process-wide `RECONNECTION` ceiling (imported by the source from
the package root). The handler increments the counter, raises
`CannotConnectApi` once the counter exceeds the ceiling, and otherwise
recurses on the (possibly rebound) form data. -/
def loginRun (env : Nat → JVal → TransportResult) (R : Nat) (url : String)
    (off : Nat) (data : JVal) (cnt : Nat) : Except PyExc String × List Nat :=
  match loginTryBody (env off data) with
  | .ok s => (.ok s, [off])
  | .error err =>
      if h : cnt + 1 > R then
        (.error (.cannotConnectApi url err), [off])
      else
        let r := loginRun env R url (off + 1) (dataAfter data (env off data)) (cnt + 1)
        (r.1, off :: r.2)
termination_by R - cnt
decreasing_by omega

/-- The form data evolved through `k` failing attempts starting at global
index `off` (tracking the source's rebinding of `data`). -/
def dataIterate (env : Nat → JVal → TransportResult) : JVal → Nat → Nat → JVal
  | data, _, 0 => data
  | data, off, k + 1 => dataIterate env (dataAfter data (env off data)) (off + 1) k

/-- Whether one attempt's try body failed (threw any exception). -/
def isFail : Except PyExc String → Bool
  | .error _ => true
  | .ok _ => false

/-- The exception of a failed attempt (junk value on a success; only ever
used under an `isFail` hypothesis). -/
def errOf : Except PyExc String → PyExc
  | .error e => e
  | .ok _ => .typeError

/-! ### The `except Exception or not Music163BadCode` guard (line 334) -/

/-- The classes of the exceptions in scope (`Exception` itself plus the
classes of the `PyExc` values). -/
inductive ExcClass where
  | exceptionC
  | music163BadCodeC
  | cannotConnectApiC
  | music163BadDataC
  | keyErrorC
  | typeErrorC
  | netErrorC
deriving DecidableEq

/-- The class of a raised exception value. -/
def classOf : PyExc → ExcClass
  | .music163BadCode _ => .music163BadCodeC
  | .cannotConnectApi _ _ => .cannotConnectApiC
  | .music163BadData _ => .music163BadDataC
  | .keyError _ => .keyErrorC
  | .typeError => .typeErrorC
  | .netError _ => .netErrorC

/-- Modelled from the spec: pycloudmusic/error.py is not under src/. The
spec's error taxonomy presents Music163BadCode, CannotConnectApi and
Music163BadData as typed errors raised to callers, i.e. Exception
subclasses, and the builtins KeyError and TypeError subclass Exception in
Python; so here every class is a subclass of `Exception` (and of itself). -/
def pySubclass (c d : ExcClass) : Bool := c = d || d = .exceptionC

/-- A Python value as far as the guard expression needs: a class object or a
boolean. Class objects are truthy; booleans carry their own truth value. -/
inductive PyV where
  | cls (c : ExcClass)
  | pybool (b : Bool)

/-- Python truthiness of such a value. -/
def pyTruthy : PyV → Bool
  | .cls _ => true
  | .pybool b => b

/-- Python `a or b`: the first operand when truthy, otherwise the second. -/
def pyOrV (a b : PyV) : PyV := if pyTruthy a then a else b

/-- Python `not a`. -/
def pyNotV (a : PyV) : PyV := .pybool (!pyTruthy a)

/-- The guard expression of the source's handler, evaluated the way Python
evaluates it before matching: `Exception or not Music163BadCode`. -/
def exceptGuard : PyV := pyOrV (.cls .exceptionC) (pyNotV (.cls .music163BadCodeC))

/-- Whether `except g` catches a raised exception: `g` must be a class and
the exception an instance of it (a non-class guard is itself an error at
catch time and catches nothing). -/
def guardCatches (g : PyV) (e : PyExc) : Bool :=
  match g with
  | .cls c => pySubclass (classOf e) c
  | .pybool _ => false

/-! ### `LoginMusic163.qr_check` and `LoginMusic163.qr` (lines 404-439) -/

/-- The general-purpose client handle: `Music163Api(cookie=...)` holds just
the cookie it was constructed with. -/
structure Music163Api where
  cookie : Option String

/-- The path posted by `qr_check`. -/
def qrLoginUrl : String := "/api/login/qrcode/client/login"

/-- The form data posted by `qr_check`. -/
def qrLoginData (key : String) : JVal := .jobj [("key", .jstr key), ("type", .jint 1)]

/-- `LoginMusic163.qr_check`: a single call to `_login` on the QR status
endpoint, starting with a fresh `reconnection_count` of 0. -/
def qr_check (env : Nat → JVal → TransportResult) (R : Nat) (key : String)
    (off : Nat) : Except PyExc String × List Nat :=
  loginRun env R qrLoginUrl off (qrLoginData key) 0

/-- Modelled from the spec: pycloudmusic/error.py is not under src/; the spec
says the QR poll's typed error carries the remote status code, so
`Music163BadCode(data).code` is the integer `code` field of the body (absent
or non-integer codes compare unequal to every status constant). -/
def badCodeOf (d : JVal) : Option Int :=
  match getItem d "code" with
  | .ok (.jint n) => some n
  | _ => none

/-- Accounting for one loop iteration that ends in `asyncio.sleep` and then
continues: add this iteration's poll count and one sleep to the recursive
outcome. -/
def contSleep (polled : Nat) :
    Option (Except PyExc (Option String × Music163Api) × Nat × Nat) →
    Option (Except PyExc (Option String × Music163Api) × Nat × Nat) :=
  Option.map (fun r => (r.1, polled + r.2.1, 1 + r.2.2))

/-- `LoginMusic163.qr`: the `while True` polling loop, embedded with an
explicit fuel bound on loop iterations (`none` = the cutoff was reached, the
loop was still running). The result carries the returned pair or propagated
exception, the total number of HTTP polls consumed, and the number of
`asyncio.sleep` calls made. `cookie` is the instance's `self.cookie`. -/
def qrRun (env : Nat → JVal → TransportResult) (R : Nat) (key : String) :
    Nat → Option String → Nat →
    Option (Except PyExc (Option String × Music163Api) × Nat × Nat)
  | 0, _, _ => none
  | fuel + 1, cookie, off =>
      let res := qr_check env R key off
      let polled := res.2.length
      match res.1 with
      | .ok s =>
          -- self.cookie = await self.qr_check(qr_key); if self.cookie: return
          if s = "" then
            contSleep polled (qrRun env R key fuel (some s) (off + polled))
          else
            some (.ok (some s, ⟨some s⟩), polled, 0)
      | .error (.music163BadCode d) =>
          -- except Music163BadCode as err
          if badCodeOf d = some 801 ∨ badCodeOf d = some 802 then
            contSleep polled (qrRun env R key fuel cookie (off + polled))
          else if badCodeOf d = some 800 then
            some (.ok (cookie, ⟨cookie⟩), polled, 0)
          else
            contSleep polled (qrRun env R key fuel cookie (off + polled))
      | .error e =>
          -- any other exception propagates out of the loop uncaught
          some (.error e, polled, 0)

/-! ### `LoginMusic163._md5` (lines 286-300) -/

/-- `LoginMusic163._md5` together with the instance's hash object: the
source creates `hashlib.md5()` once in `__init__` and each `_md5` call does
`self.__hl.update(str_.encode("utf-8")); return self.__hl.hexdigest()`. The
digest of an md5 object is a function of the whole byte stream fed to it
since construction; `hexOf` abstracts that function and `acc` is the stream
fed so far (`[]` at construction). Returns the new stream and the hex digest
the call hands back. -/
def md5Call (hexOf : List Char → String) (acc : List Char) (s : String) :
    List Char × String :=
  (acc ++ s.toList, hexOf (acc ++ s.toList))

/-- The hash the spec requires, stated in its words: a pure function of the
single input, fresh hasher state per call. -/
def md5Fresh (hexOf : List Char → String) (s : String) : String :=
  hexOf s.toList

/-! ### `Music163Api.my` (lines 24-30) -/

/-- The `My` object constructed on success: the raw payload plus the current
cookie. -/
structure My where
  data : JVal
  cookie : Option String

/-- `Music163Api.my`, applied to the parsed body the transport returned:
`if data["profile"] is None: raise Music163BadData(data)`, else
`My(data, cookie)`. -/
def myRun (data : JVal) (cookie : Option String) : Except PyExc My :=
  match getItem data "profile" with
  | .error e => .error e
  | .ok v => if isJNull v then .error (.music163BadData data) else .ok ⟨data, cookie⟩

/-! ### `Music163Api.music` and `Music163Api.playlist` (lines 32-44, 53-77) -/

/-- A `Music` mapper object holding its raw payload. -/
structure Music where
  music_data : JVal

/-- What `Music163Api.music` hands back: one object when the response's
`songs` list has exactly one entry, otherwise a generator over the list. -/
inductive MusicRet where
  | single (m : Music)
  | many (ms : List Music)

/-- `Music163Api.music` on a batch of ids. `songsOf` is the remote side of
the song-detail endpoint: the `songs` field of the response to a given id
batch. -/
def musicRun (songsOf : List JVal → List JVal) (ids : List JVal) : MusicRet :=
  match songsOf ids with
  | [s] => .single ⟨s⟩
  | songs => .many (songs.map Music.mk)

/-- Modelled from the spec: `Music` (pycloudmusic/object/music163.py) is not
under src/. The spec describes the mappers as read-only domain objects with
a one-to-one field mapping and no iteration protocol, so Python's `list()`
on a single `Music` raises TypeError, while on the generator it collects the
elements. -/
def pyListMusic : MusicRet → Except PyExc (List Music)
  | .single _ => .error .typeError
  | .many ms => .ok ms

/-- `song.get("id")` on one element of `playlist_data["trackIds"]` (the
elements the endpoint returns are JSON objects; `.get` yields None for a
missing key). -/
def pyDictGetId : JVal → JVal
  | .jobj fields =>
      match jlookup fields "id" with
      | some v => v
      | none => .jnull
  | _ => .jnull

/-- Python `range(0, n, 1000)` as a list, for the loop header
`for i in range(0, len(trackIds), 1000)`. -/
def pyRangeStep1000 (n : Nat) : List Nat :=
  (List.range ((n + 999) / 1000)).map (fun j => 1000 * j)

/-- The playlist metadata the first request produced: the raw
`playlist_data["trackIds"]` elements and `playlist_data["tracks"]`. -/
structure PlaylistData where
  trackIds : List JVal
  tracks : List JVal

/-- The follow-up loop of `Music163Api.playlist`: for each start index,
slice `trackIds[i : i + 1000]`, fetch it through `music`, convert with
`list(...)`, project `music_data` and append to the growing `tracks`. The
second component records each id batch posted (an exception from an
iteration propagates, aborting the loop). -/
def playlistLoop (songsOf : List JVal → List JVal) (trackIds : List JVal) :
    List JVal → List Nat → Except PyExc (List JVal) × List (List JVal)
  | tracks, [] => (.ok tracks, [])
  | tracks, i :: rest =>
      let slice := (trackIds.drop i).take 1000
      match pyListMusic (musicRun songsOf slice) with
      | .error e => (.error e, [slice])
      | .ok ms =>
          let r := playlistLoop songsOf trackIds (tracks ++ ms.map Music.music_data) rest
          (r.1, slice :: r.2)

/-- `Music163Api.playlist` after the metadata fetch: extract the ids, drop
the first 1000, return the playlist unchanged when nothing remains, else run
the follow-up loop. The result is the final `playlist_data["tracks"]` (or
the propagated exception) together with the id batches posted to the
song-detail endpoint. -/
def playlistRun (songsOf : List JVal → List JVal) (pd : PlaylistData) :
    Except PyExc (List JVal) × List (List JVal) :=
  let trackIds := (pd.trackIds.map pyDictGetId).drop 1000
  if trackIds.isEmpty then (.ok pd.tracks, [])
  else playlistLoop songsOf trackIds pd.tracks (pyRangeStep1000 trackIds.length)

/-! ### Concrete scripted environments and inputs used by the closed
theorems below -/

/-- A response body with just a code field. -/
def respCode (n : Int) : RespData := ⟨.jobj [("code", .jint n)], []⟩

/-- A remote that answers every login attempt with the business rejection
501 (unregistered). -/
def envBad501 : Nat → JVal → TransportResult := fun _ _ => .ok (respCode 501)

/-- A remote that reports QR status 801 (waiting) on every poll. -/
def env801 : Nat → JVal → TransportResult := fun _ _ => .ok (respCode 801)

/-- A successful QR status response carrying a session cookie morsel. -/
def respQrOk : RespData := ⟨.jobj [("code", .jint 803)], ["Set-Cookie: MUSIC_U=x"]⟩

/-- A remote that reports QR status 803 (success) with a cookie on every
poll. -/
def env803 : Nat → JVal → TransportResult := fun _ _ => .ok respQrOk

/-- The scripted QR session [801, then expired]: poll 0 reports 801
(waiting), every later poll reports 800 (expired stays expired). -/
def envQrExpired : Nat → JVal → TransportResult := fun i _ =>
  if i = 0 then .ok (respCode 801) else .ok (respCode 800)

/-- The scripted QR session [801, 801, 802, 803-with-token], answering 800
past the script's end. -/
def envQrScripted : Nat → JVal → TransportResult := fun i _ =>
  if i < 2 then .ok (respCode 801)
  else if i = 2 then .ok (respCode 802)
  else if i = 3 then .ok respQrOk
  else .ok (respCode 800)

/-- A sample remote song-detail mapping: one song object per requested id. -/
def songOfC (v : JVal) : JVal := .jobj [("song", v)]

/-- Track-id objects for ids `0 .. n-1`, shaped like the endpoint's
`trackIds` entries. -/
def trackIdObjs (n : Nat) : List JVal :=
  (List.range n).map (fun (k : Nat) => .jobj [("id", .jint (k : Int))])

/-- A playlist response with 1500 track ids whose `tracks` field holds the
song objects of the first 1000 ids (the remote caps `tracks` at 1000). -/
def pd1500 : PlaylistData :=
  ⟨trackIdObjs 1500, (List.range 1000).map (fun (k : Nat) => songOfC (.jint (k : Int)))⟩

/-- A playlist response with 1001 track ids (so the follow-up batch has
exactly one id) whose `tracks` field holds the first 1000 song objects. -/
def pd1001 : PlaylistData :=
  ⟨trackIdObjs 1001, (List.range 1000).map (fun (k : Nat) => songOfC (.jint (k : Int)))⟩

/-- A playlist response with only 3 track ids (nothing past the first
thousand). -/
def pd3 : PlaylistData :=
  ⟨trackIdObjs 3, [songOfC (.jint 0), songOfC (.jint 1), songOfC (.jint 2)]⟩

/-- A who-am-I response with no `profile` key at all. -/
def respNoProfile : JVal := .jobj [("code", .jint 200)]

/-! ## Theorems -/

/-- Helper: when every attempt fails, `_login` performs exactly the attempts
at indices `off .. off + (R - cnt)` and raises `CannotConnectApi` around the
last attempt's exception. -/
theorem loginRun_allFail (env : Nat → JVal → TransportResult) (R : Nat) (url : String)
    (hfail : ∀ n d, isFail (loginTryBody (env n d)) = true) :
    ∀ k off data cnt, cnt + k = R →
      loginRun env R url off data cnt =
        (.error (.cannotConnectApi url
            (errOf (loginTryBody (env (off + k) (dataIterate env data off k))))),
         List.range' off (k + 1)) := by
  intro k
  induction k with
  | zero =>
      intro off data cnt hcnt
      rw [loginRun]
      have h1 := hfail off data
      cases hb : loginTryBody (env off data) with
      | ok s => rw [hb] at h1; simp [isFail] at h1
      | error e =>
          simp only [hb]
          have : cnt + 1 > R := by omega
          simp only [dif_pos this]
          simp [dataIterate, errOf, hb, List.range']
  | succ k ih =>
      intro off data cnt hcnt
      rw [loginRun]
      have h1 := hfail off data
      cases hb : loginTryBody (env off data) with
      | ok s => rw [hb] at h1; simp [isFail] at h1
      | error e =>
          simp only [hb]
          have hlt : ¬ (cnt + 1 > R) := by omega
          simp only [dif_neg hlt]
          have hrec := ih (off + 1) (dataAfter data (env off data)) (cnt + 1) (by omega)
          rw [hrec]
          have harith : off + 1 + k = off + (k + 1) := by omega
          simp only [dataIterate, harith, List.range']

/-- C2: when every attempt of `_login` fails (raises, or yields a response
whose code is unaccepted), the recursion performs exactly `RECONNECTION + 1`
attempts, at counter values `0 .. RECONNECTION` inclusive, and raises
`CannotConnectApi` carrying the path and the last attempt's underlying
exception; it never recurses beyond that bound. -/
theorem login_retry_terminates (env : Nat → JVal → TransportResult) (R : Nat)
    (url : String) (data : JVal)
    (hfail : ∀ n d, isFail (loginTryBody (env n d)) = true) :
    ∃ e, loginTryBody (env R (dataIterate env data 0 R)) = .error e ∧
      loginRun env R url 0 data 0 =
        (.error (.cannotConnectApi url e), List.range (R + 1)) := by
  have h := loginRun_allFail env R url hfail R 0 data 0 (by omega)
  have h2 := hfail R (dataIterate env data 0 R)
  cases hb : loginTryBody (env R (dataIterate env data 0 R)) with
  | ok s => rw [hb] at h2; simp [isFail] at h2
  | error e =>
      refine ⟨e, rfl, ?_⟩
      rw [h, List.range_eq_range']
      have hz : (0 : Nat) + R = R := by omega
      rw [hz, hb]
      rfl

/-- Witness for the retry-exhaustion theorem at a concrete scripted remote
(everything fails with business code 501, ceiling 2). -/
theorem login_retry_terminates_witness :
    ∃ e, loginTryBody (envBad501 2 (dataIterate envBad501 (.jobj []) 0 2)) = .error e ∧
      loginRun envBad501 2 "/api/login" 0 (.jobj []) 0 =
        (.error (.cannotConnectApi "/api/login" e), List.range 3) :=
  login_retry_terminates envBad501 2 "/api/login" (.jobj []) (fun _ _ => rfl)

/-- C1 (code defect): a business rejection on a login attempt is not raised
to the caller immediately — the catch-all handler retries it like a
transport failure. With ceiling 3, a remote that always answers 501 makes
`_login` perform 4 attempts and raise `CannotConnectApi` wrapping the
`Music163BadCode`, so the typed business error never reaches the caller
directly. -/
theorem login_badcode_retried_not_raised :
    loginRun envBad501 3 "/api/login" 0 (.jobj []) 0 =
      (.error (.cannotConnectApi "/api/login"
          (.music163BadCode (.jobj [("code", .jint 501)]))), [0, 1, 2, 3]) := by
  have h := loginRun_allFail envBad501 3 "/api/login" (fun _ _ => rfl) 3 0 (.jobj []) 0
    (by omega)
  rw [h]
  rfl

/-- C3: one `_login` attempt succeeds iff the parsed body's `code` is a
member of the accepted set, 200 or 803; on success it returns the session
token assembled from the response's Set-Cookie morsels, and on any other
code it raises `Music163BadCode` carrying the parsed body (which is what the
retry handler then receives). -/
theorem login_attempt_code_gate (r : RespData) (c : Int)
    (hc : getItem r.json "code" = .ok (.jint c)) :
    (loginTryBody (.ok r) = .ok (simpleCookieToCookieStr r.cookies) ↔ (c = 200 ∨ c = 803))
    ∧ (¬ (c = 200 ∨ c = 803) →
        loginTryBody (.ok r) = .error (.music163BadCode r.json)) := by
  have hred : loginTryBody (.ok r) =
      (match getItem r.json "code" with
       | .error e => .error e
       | .ok code =>
           if pyEqInt code 200 || pyEqInt code 803 then
             .ok (simpleCookieToCookieStr r.cookies)
           else
             .error (.music163BadCode r.json)) := rfl
  have hred2 : loginTryBody (.ok r) =
      (if pyEqInt (.jint c) 200 || pyEqInt (.jint c) 803 then
         (.ok (simpleCookieToCookieStr r.cookies) : Except PyExc String)
       else
         .error (.music163BadCode r.json)) := by
    rw [hred, hc]
  rw [hred2]
  by_cases h : c = 200 ∨ c = 803
  · have hcond : (pyEqInt (.jint c) 200 || pyEqInt (.jint c) 803) = true := by
      rcases h with h | h <;> simp [pyEqInt, h]
    rw [hcond]
    exact ⟨⟨fun _ => h, fun _ => rfl⟩, fun hn => absurd h hn⟩
  · have hcond : (pyEqInt (.jint c) 200 || pyEqInt (.jint c) 803) = false := by
      push_neg at h
      simp [pyEqInt, h.1, h.2]
    rw [hcond]
    exact ⟨⟨fun he => Except.noConfusion he, fun hc2 => absurd hc2 h⟩, fun _ => rfl⟩

/-- Witness for the attempt-level code gate at a concrete 803 response with
a cookie morsel. -/
theorem login_attempt_code_gate_witness :
    (loginTryBody (.ok respQrOk) = .ok (simpleCookieToCookieStr respQrOk.cookies)
        ↔ ((803 : Int) = 200 ∨ (803 : Int) = 803))
    ∧ (¬ ((803 : Int) = 200 ∨ (803 : Int) = 803) →
        loginTryBody (.ok respQrOk) = .error (.music163BadCode respQrOk.json)) :=
  login_attempt_code_gate respQrOk 803 rfl

/-- Helper: one step of `_login` when the attempt succeeds. -/
theorem loginRun_ok_step (env : Nat → JVal → TransportResult) (R : Nat) (url : String)
    (off : Nat) (data : JVal) (cnt : Nat) (s : String)
    (hb : loginTryBody (env off data) = .ok s) :
    loginRun env R url off data cnt = (.ok s, [off]) := by
  rw [loginRun]
  split
  · rename_i s2 heq
    rw [hb] at heq
    cases heq
    rfl
  · rename_i e heq
    rw [hb] at heq
    cases heq

/-- Helper: one step of `_login` when the attempt fails below the ceiling:
the handler recurses on the rebound data with the counter bumped. -/
theorem loginRun_fail_step (env : Nat → JVal → TransportResult) (R : Nat) (url : String)
    (off : Nat) (data : JVal) (cnt : Nat) (e : PyExc)
    (hb : loginTryBody (env off data) = .error e) (hle : cnt + 1 ≤ R) :
    loginRun env R url off data cnt =
      ((loginRun env R url (off + 1) (dataAfter data (env off data)) (cnt + 1)).1,
        off :: (loginRun env R url (off + 1) (dataAfter data (env off data)) (cnt + 1)).2) := by
  rw [loginRun]
  split
  · rename_i s heq
    rw [hb] at heq
    cases heq
  · rename_i e2 heq
    rw [dif_neg (by omega)]

/-- Helper: the one-iteration unfolding of the `qr` polling loop. -/
theorem qrRun_succ (env : Nat → JVal → TransportResult) (R : Nat) (key : String)
    (fuel : Nat) (cookie : Option String) (off : Nat) :
    qrRun env R key (fuel + 1) cookie off =
      (match (qr_check env R key off).1 with
       | .ok s =>
           if s = "" then
             contSleep (qr_check env R key off).2.length
               (qrRun env R key fuel (some s) (off + (qr_check env R key off).2.length))
           else
             some (.ok (some s, ⟨some s⟩), (qr_check env R key off).2.length, 0)
       | .error (.music163BadCode d) =>
           if badCodeOf d = some 801 ∨ badCodeOf d = some 802 then
             contSleep (qr_check env R key off).2.length
               (qrRun env R key fuel cookie (off + (qr_check env R key off).2.length))
           else if badCodeOf d = some 800 then
             some (.ok (cookie, ⟨cookie⟩), (qr_check env R key off).2.length, 0)
           else
             contSleep (qr_check env R key off).2.length
               (qrRun env R key fuel cookie (off + (qr_check env R key off).2.length))
       | .error e => some (.error e, (qr_check env R key off).2.length, 0)) := rfl

/-- Helper: on the scripted statuses [801, 801, 802, 803-with-cookie], one
`qr_check` call consumes all four polls internally and returns the token. -/
theorem qr_check_scripted_eval : qr_check envQrScripted 3 "k" 0 =
    (.ok "MUSIC_U=x; ", [0, 1, 2, 3]) := by
  have s3 : loginRun envQrScripted 3 qrLoginUrl 3 (.jobj [("code", .jint 802)]) 3 =
      (.ok "MUSIC_U=x; ", [3]) :=
    loginRun_ok_step envQrScripted 3 qrLoginUrl 3 (.jobj [("code", .jint 802)]) 3
      "MUSIC_U=x; " rfl
  have s2 : loginRun envQrScripted 3 qrLoginUrl 2 (.jobj [("code", .jint 801)]) 2 =
      (.ok "MUSIC_U=x; ", [2, 3]) := by
    rw [loginRun_fail_step envQrScripted 3 qrLoginUrl 2 (.jobj [("code", .jint 801)]) 2
        (.music163BadCode (.jobj [("code", .jint 802)])) rfl (by omega)]
    rw [show dataAfter (.jobj [("code", .jint 801)])
          (envQrScripted 2 (.jobj [("code", .jint 801)])) = (.jobj [("code", .jint 802)] : JVal)
        from rfl]
    rw [s3]
  have s1 : loginRun envQrScripted 3 qrLoginUrl 1 (.jobj [("code", .jint 801)]) 1 =
      (.ok "MUSIC_U=x; ", [1, 2, 3]) := by
    rw [loginRun_fail_step envQrScripted 3 qrLoginUrl 1 (.jobj [("code", .jint 801)]) 1
        (.music163BadCode (.jobj [("code", .jint 801)])) rfl (by omega)]
    rw [show dataAfter (.jobj [("code", .jint 801)])
          (envQrScripted 1 (.jobj [("code", .jint 801)])) = (.jobj [("code", .jint 801)] : JVal)
        from rfl]
    rw [s2]
  unfold qr_check
  rw [loginRun_fail_step envQrScripted 3 qrLoginUrl 0 (qrLoginData "k") 0
      (.music163BadCode (.jobj [("code", .jint 801)])) rfl (by omega)]
  rw [show dataAfter (qrLoginData "k") (envQrScripted 0 (qrLoginData "k")) =
        (.jobj [("code", .jint 801)] : JVal) from rfl]
  rw [s1]

/-- Helper: on the scripted statuses [801, then 800 forever], one `qr_check`
call consumes four polls and raises `CannotConnectApi` around the last 800
rejection. -/
theorem qr_check_expired_eval : qr_check envQrExpired 3 "k" 0 =
    (.error (.cannotConnectApi qrLoginUrl
        (.music163BadCode (.jobj [("code", .jint 800)]))), [0, 1, 2, 3]) := by
  have hf : ∀ n d, isFail (loginTryBody (envQrExpired n d)) = true := by
    intro n d
    unfold envQrExpired
    split <;> rfl
  unfold qr_check
  rw [loginRun_allFail envQrExpired 3 qrLoginUrl hf 3 0 (qrLoginData "k") 0 (by omega)]
  rfl

/-- C4 (code defect): with ceiling 3, a single `qr_check` call against a
remote that keeps reporting the non-terminal QR status 801 performs four
polls (not one) and raises `CannotConnectApi` — the typed `Music163BadCode`
carrying 801 is swallowed by `_login`'s catch-all retry and never reaches
the caller; only the 803 success case behaves as described, returning the
assembled session token from a single poll. -/
theorem qr_check_swallows_status :
    qr_check env801 3 "key" 0 =
      (.error (.cannotConnectApi qrLoginUrl
          (.music163BadCode (.jobj [("code", .jint 801)]))), [0, 1, 2, 3])
    ∧ qr_check env803 3 "key" 0 = (.ok "MUSIC_U=x; ", [0]) := by
  constructor
  · have h := loginRun_allFail env801 3 qrLoginUrl (fun _ _ => rfl) 3 0
      (qrLoginData "key") 0 (by omega)
    unfold qr_check
    rw [h]
    rfl
  · unfold qr_check
    rw [loginRun_ok_step env803 3 qrLoginUrl 0 (qrLoginData "key") 0 "MUSIC_U=x; " rfl]

/-- C5 (code defect): the `qr` polling loop on the scripted status sequence
[801, then 800 (expired)] does not return normally after the second poll —
the first `qr_check` call internally retries through four polls and raises
`CannotConnectApi`, which the loop's `except Music163BadCode` does not
catch, so `qr` propagates an exception (with zero sleeps). On the scripted
sequence [801, 801, 802, 803-with-token] the token is produced, but by four
back-to-back polls inside one `qr_check` call with zero sleeps, not by
sleep-separated re-polls. -/
theorem qr_flow_expired_raises :
    qrRun envQrExpired 3 "k" (9 + 1) none 0 =
      some (.error (.cannotConnectApi qrLoginUrl
          (.music163BadCode (.jobj [("code", .jint 800)]))), 4, 0)
    ∧ qrRun envQrScripted 3 "k" (9 + 1) none 0 =
      some (.ok (some "MUSIC_U=x; ", ⟨some "MUSIC_U=x; "⟩), 4, 0) := by
  constructor
  · rw [qrRun_succ, qr_check_expired_eval]
    rfl
  · rw [qrRun_succ, qr_check_scripted_eval]
    rfl

/-- C7: the retry guard `except Exception or not Music163BadCode` is the
guard `except Exception`: the boolean expression evaluates to the class
`Exception`, and the handler catches every exception — including
`Music163BadCode` itself — so no Exception subclass escapes it directly. -/
theorem except_guard_is_catch_all :
    exceptGuard = .cls .exceptionC
    ∧ (∀ e : PyExc, guardCatches exceptGuard e = true)
    ∧ guardCatches exceptGuard (.music163BadCode (.jobj [])) = true := by
  refine ⟨rfl, fun e => ?_, rfl⟩
  cases e <;> rfl

/-- C6 (code defect): `_md5` reuses the instance's single hash object, so
the second of two calls `_md5("a"); _md5("a")` on one instance returns the
digest of the accumulated stream "aa", not the digest of "a" alone that the
spec's fresh-per-call hash computes — the streams fed to the digest
function differ. -/
theorem md5_accumulates_state (hexOf : List Char → String) :
    (md5Call hexOf (md5Call hexOf [] "a").1 "a").2 = hexOf "aa".toList
    ∧ md5Fresh hexOf "a" = hexOf "a".toList
    ∧ "aa".toList ≠ "a".toList :=
  ⟨rfl, rfl, by decide⟩

/-- C9 counterexample: on a who-am-I response that lacks the `profile` key
entirely, `my` raises the subscript's `KeyError` — not the distinct
`Music163BadData` error the claim promises for a missing field. -/
theorem my_missing_profile_keyerror :
    myRun respNoProfile none = .error (.keyError "profile")
    ∧ (Except.error (.keyError "profile") : Except PyExc My) ≠
        .error (.music163BadData respNoProfile) := by
  refine ⟨rfl, fun h => ?_⟩
  injection h with h2
  cases h2

/-- C9 (amended): `my` raises `Music163BadData` exactly when the `profile`
field is present and null; a present non-null profile yields the `My`
object built from the response and the current cookie; a missing `profile`
key raises the subscript's own `KeyError` instead. -/
theorem my_profile_gate (data : JVal) (cookie : Option String) :
    (getItem data "profile" = .ok .jnull →
      myRun data cookie = .error (.music163BadData data))
    ∧ (∀ v, getItem data "profile" = .ok v → isJNull v = false →
        myRun data cookie = .ok ⟨data, cookie⟩)
    ∧ (∀ e, getItem data "profile" = .error e → myRun data cookie = .error e) := by
  refine ⟨fun h => ?_, fun v hv hnn => ?_, fun e he => ?_⟩
  · unfold myRun
    rw [h]
    rfl
  · have hred : myRun data cookie =
        (if isJNull v then .error (.music163BadData data)
         else (.ok ⟨data, cookie⟩ : Except PyExc My)) := by
      unfold myRun
      rw [hv]
    rw [hred, hnn]
    rfl
  · unfold myRun
    rw [he]

/-- Witness for the profile gate at a concrete response with a non-null
profile object. -/
theorem my_profile_gate_witness :
    myRun (.jobj [("profile", .jobj [("userId", .jint 1)])]) (some "c") =
      .ok ⟨.jobj [("profile", .jobj [("userId", .jint 1)])], some "c"⟩ :=
  (my_profile_gate (.jobj [("profile", .jobj [("userId", .jint 1)])])
    (some "c")).2.1 (.jobj [("userId", .jint 1)]) rfl rfl





/-- Helper: projecting `music_data` out of freshly wrapped `Music` objects
is the identity. -/
theorem map_music_roundtrip (l : List JVal) :
    (l.map Music.mk).map Music.music_data = l := by
  induction l with
  | nil => rfl
  | cons a t ih => simp only [List.map_cons, ih]

/-- Helper: when the remote returns one song per requested id and the batch
has not exactly one id, `list(music(...))` collects the mapped objects. -/
theorem musicRun_map_ne_one (songOf : JVal → JVal) (ids : List JVal)
    (h : ids.length ≠ 1) :
    pyListMusic (musicRun (List.map songOf) ids) =
      .ok ((ids.map songOf).map Music.mk) := by
  unfold musicRun
  cases hm : ids.map songOf with
  | nil => rfl
  | cons a l =>
      cases l with
      | nil =>
          exfalso
          apply h
          have := congrArg List.length hm
          simpa using this
      | cons b l2 => rfl

/-- Helper: the one-iteration unfolding of the playlist follow-up loop. -/
theorem playlistLoop_cons (songsOf : List JVal → List JVal)
    (trackIds t : List JVal) (i : Nat) (rest : List Nat) :
    playlistLoop songsOf trackIds t (i :: rest) =
      (match pyListMusic (musicRun songsOf ((trackIds.drop i).take 1000)) with
       | .error e => (.error e, [(trackIds.drop i).take 1000])
       | .ok ms =>
           ((playlistLoop songsOf trackIds (t ++ ms.map Music.music_data) rest).1,
            (trackIds.drop i).take 1000 ::
              (playlistLoop songsOf trackIds (t ++ ms.map Music.music_data) rest).2)) := rfl

/-- Helper: running the loop over indices shifted by 1000 equals running it
over the track-id list with its first 1000 entries dropped. -/
theorem playlistLoop_shift (songsOf : List JVal → List JVal) (xs : List JVal) :
    ∀ (idxs : List Nat) (t : List JVal),
      playlistLoop songsOf xs t (idxs.map (fun i => 1000 + i)) =
        playlistLoop songsOf (xs.drop 1000) t idxs := by
  intro idxs
  induction idxs with
  | nil => intro t; rfl
  | cons i rest ih =>
      intro t
      rw [List.map_cons, playlistLoop_cons, playlistLoop_cons]
      rw [List.drop_drop]
      have harith : (1000 : Nat) + i = i + 1000 := by omega
      rw [harith] at *
      cases hp : pyListMusic (musicRun songsOf ((xs.drop (i + 1000)).take 1000)) with
      | error e => rfl
      | ok ms => simp only [ih]

/-- Helper: over index list `range(0, 1000*m, 1000)` covering all of `xs`,
with no slice of exactly one id, the loop appends the mapped songs of `xs`
in order and posts exactly the 1000-sized slices as batches. -/
theorem playlistLoop_batches (songOf : JVal → JVal) :
    ∀ (m : Nat) (xs t : List JVal),
      xs.length ≤ 1000 * m →
      (∀ j, j < m → ((xs.drop (1000 * j)).take 1000).length ≠ 1) →
      playlistLoop (List.map songOf) xs t ((List.range m).map (fun j => 1000 * j)) =
        (.ok (t ++ xs.map songOf),
          (List.range m).map (fun j => (xs.drop (1000 * j)).take 1000)) := by
  intro m
  induction m with
  | zero =>
      intro xs t hlen hne
      have hx : xs = [] := List.eq_nil_of_length_eq_zero (by omega)
      subst hx
      simp [playlistLoop]
  | succ m ih =>
      intro xs t hlen hne
      have hfun : ((fun j => 1000 * j) ∘ Nat.succ) =
          ((fun i => 1000 + i) ∘ (fun j : Nat => 1000 * j)) := by
        funext j
        simp [Function.comp, Nat.mul_succ]
        omega
      rw [List.range_succ_eq_map, List.map_cons, List.map_map, hfun,
        ← List.map_map (fun i : Nat => 1000 + i) (fun j : Nat => 1000 * j)]
      rw [playlistLoop_cons]
      have hs0 : ((xs.drop (1000 * 0)).take 1000).length ≠ 1 := hne 0 (by omega)
      rw [show (1000 * 0 : Nat) = 0 from rfl] at hs0
      rw [show ((xs.drop 0).take 1000) = xs.take 1000 from by rw [List.drop_zero]]
      rw [musicRun_map_ne_one songOf (xs.take 1000) (by rw [← List.drop_zero xs]; exact hs0)]
      simp only []
      rw [map_music_roundtrip]
      rw [playlistLoop_shift]
      have hrec := ih (xs.drop 1000) (t ++ (xs.take 1000).map songOf)
        (by rw [List.length_drop]; omega)
        (by
          intro j hj
          have := hne (j + 1) (by omega)
          rw [List.drop_drop]
          have harith : 1000 + 1000 * j = 1000 * (j + 1) := by ring
          rw [harith]
          exact this)
      rw [hrec]
      congr 1
      · rw [List.append_assoc, ← List.map_append, List.take_append_drop]
      · rw [List.map_cons]
        congr 1
        rw [List.map_map]
        show List.map (fun j => List.take 1000 (List.drop (1000 * j) (List.drop 1000 xs)))
          (List.range m) = _
        congr 1
        funext j
        simp only [Function.comp]
        rw [List.drop_drop]
        congr 2
        omega

/-- C8 (amended): `playlist` with at most 1000 track ids makes no follow-up
call and returns the metadata's tracks unchanged; with more than 1000 ids —
provided no follow-up batch consists of exactly one id — it pages through
the remaining ids in order, in batches of at most 1000, posting exactly the
consecutive 1000-sized slices and appending the fetched song objects to the
track collection in original order. (The claim's unqualified form fails when
the remainder is 1 mod 1000: that lone batch takes `music`'s single-object
return and `list()` of it fails; see the counterexample.) -/
theorem playlist_paging (songOf : JVal → JVal) (pd : PlaylistData) :
    (((pd.trackIds.map pyDictGetId).drop 1000).isEmpty = true →
        playlistRun (List.map songOf) pd = (.ok pd.tracks, []))
    ∧ (∀ rest, rest = (pd.trackIds.map pyDictGetId).drop 1000 →
        rest.isEmpty = false →
        (∀ i ∈ pyRangeStep1000 rest.length, ((rest.drop i).take 1000).length ≠ 1) →
        playlistRun (List.map songOf) pd =
          (.ok (pd.tracks ++ rest.map songOf),
            (pyRangeStep1000 rest.length).map (fun i => (rest.drop i).take 1000))
        ∧ (∀ b ∈ (pyRangeStep1000 rest.length).map (fun i => (rest.drop i).take 1000),
            b.length ≤ 1000)) := by
  constructor
  · intro h
    simp only [playlistRun]
    rw [h]
    rfl
  · intro rest hrest hne hsl
    constructor
    · simp only [playlistRun]
      rw [← hrest, hne]
      have hm : rest.length ≤ 1000 * ((rest.length + 999) / 1000) := by omega
      have hsl2 : ∀ j, j < (rest.length + 999) / 1000 →
          ((rest.drop (1000 * j)).take 1000).length ≠ 1 := by
        intro j hj
        apply hsl
        unfold pyRangeStep1000
        exact List.mem_map.2 ⟨j, List.mem_range.2 hj, rfl⟩
      have hb := playlistLoop_batches songOf ((rest.length + 999) / 1000) rest pd.tracks hm hsl2
      unfold pyRangeStep1000
      simp only [Bool.false_eq_true, if_false]
      rw [hb, List.map_map]
      rfl
    · intro b hb
      rcases List.mem_map.1 hb with ⟨i, hi, hbi⟩
      rw [← hbi]
      simp [List.length_take]

set_option maxRecDepth 5000 in
/-- Helper: id extraction over the 1001-id playlist. -/
theorem hmap1001 : pd1001.trackIds.map pyDictGetId =
    (List.range 1001).map (fun (k : Nat) => JVal.jint (k : Int)) := by
  show (trackIdObjs 1001).map pyDictGetId = _
  unfold trackIdObjs
  rw [List.map_map]
  rfl

/-- Helper: the 1001-id playlist leaves exactly one id past the first
thousand. -/
theorem hrest1001 : (pd1001.trackIds.map pyDictGetId).drop 1000 =
    [JVal.jint (1000 : Int)] := by
  rw [hmap1001, ← List.map_drop]
  rw [show (1001 : Nat) = 1000 + 1 from rfl, List.range_succ]
  rw [List.drop_left' (show (List.range 1000).length = 1000 by simp)]
  rfl

/-- C8 counterexample: a playlist of 1001 track ids (follow-up batch of
exactly one id) does not yield the appended track collection the claim
promises for every n > 1000 — the single-id batch takes `music`'s
single-object return path and `list()` of it raises TypeError, which
propagates out of `playlist`. -/
theorem playlist_single_batch_crashes :
    (playlistRun (List.map songOfC) pd1001).1 = .error .typeError := by
  have h2 : playlistRun (List.map songOfC) pd1001 =
      playlistLoop (List.map songOfC) [JVal.jint (1000 : Int)] pd1001.tracks
        (pyRangeStep1000 1) := by
    simp only [playlistRun]
    rw [hrest1001]
    rfl
  rw [h2]
  rfl

set_option maxRecDepth 8000 in
/-- Helper: id extraction over the 1500-id playlist. -/
theorem hmap1500 : pd1500.trackIds.map pyDictGetId =
    (List.range 1500).map (fun (k : Nat) => JVal.jint (k : Int)) := by
  show (trackIdObjs 1500).map pyDictGetId = _
  unfold trackIdObjs
  rw [List.map_map]
  rfl

/-- Helper: the 1500-id playlist leaves ids 1000..1499, in order, past the
first thousand. -/
theorem hrest1500 : (pd1500.trackIds.map pyDictGetId).drop 1000 =
    (List.range' 1000 500).map (fun (k : Nat) => JVal.jint (k : Int)) := by
  rw [hmap1500, ← List.map_drop, List.range_eq_range']
  rw [show (1500 : Nat) = 1000 + 500 from rfl]
  rw [← List.range'_append_1 0 1000 500]
  rw [List.drop_left' (by simp)]

set_option maxRecDepth 8000 in
/-- Witness for C8: a 3-id playlist makes no follow-up call; the 1500-id
playlist satisfies the paging theorem's hypotheses, its single follow-up
batch is the ids 1000..1499 in order, and the final track collection has
length 1500. -/
theorem playlist_paging_witness :
    playlistRun (List.map songOfC) pd3 = (.ok pd3.tracks, [])
    ∧ playlistRun (List.map songOfC) pd1500 =
        (.ok (pd1500.tracks ++
            (((pd1500.trackIds.map pyDictGetId).drop 1000).map songOfC)),
          (pyRangeStep1000 ((pd1500.trackIds.map pyDictGetId).drop 1000).length).map
            (fun i => (((pd1500.trackIds.map pyDictGetId).drop 1000).drop i).take 1000))
    ∧ (pd1500.trackIds.map pyDictGetId).drop 1000 =
        (List.range' 1000 500).map (fun (k : Nat) => JVal.jint (k : Int))
    ∧ (pd1500.tracks ++
        (((pd1500.trackIds.map pyDictGetId).drop 1000).map songOfC)).length = 1500 := by
  refine ⟨(playlist_paging songOfC pd3).1 rfl,
    ((playlist_paging songOfC pd1500).2 _ rfl ?_ ?_).1, hrest1500, ?_⟩
  · rw [hrest1500]
    rfl
  · intro i hi
    rw [hrest1500] at hi ⊢
    have hp : pyRangeStep1000
        (((List.range' 1000 500).map (fun (k : Nat) => JVal.jint (k : Int))).length) = [0] := by
      rfl
    rw [hp] at hi
    rcases List.mem_singleton.1 hi with rfl
    decide
  · rw [hrest1500]
    simp [pd1500]

/-- Helper: the character-set lstrip of the source equals `dropWhile`
membership in the set. -/
theorem pyLstrip_eq_dropWhile (chars : List Char) (l : List Char) :
    pyLstrip chars l = l.dropWhile (fun c => decide (c ∈ chars)) := by
  induction l with
  | nil => rfl
  | cons c cs ih =>
      rw [List.dropWhile_cons]
      by_cases h : c ∈ chars
      · simp only [pyLstrip, if_pos h, ih, decide_eq_true h, if_true]
      · simp only [pyLstrip, if_neg h, decide_eq_false h, Bool.false_eq_true, if_false]

/-- Helper: the accumulating fold of `_SimpleCookieToCookieStr` written as a
right fold (the fragments joined in order, each followed by a semicolon and
space). -/
theorem cookieStr_foldr (items : List String) (acc : String) :
    items.foldl (fun a it => a ++ cleanFragment it ++ "; ") acc =
      acc ++ items.foldr (fun it r => cleanFragment it ++ "; " ++ r) "" := by
  induction items generalizing acc with
  | nil => simp
  | cons x xs ih =>
      rw [List.foldl_cons, List.foldr_cons, ih]
      simp [String.append_assoc]

/-- C10: the `lstrip("Set-Cookie: ")` in `_SimpleCookieToCookieStr` removes
every leading character belonging to the character set of that string, not
the literal prefix only — a cookie named `token` is emitted as `n=...` —
and the assembled token is the fragments joined in order, each followed by
`; `, hence (when non-empty) ending with a trailing `; `. -/
theorem cookie_lstrip_charset (items : List String) (s : String) :
    pyLstrip setCookieChars s.toList =
        s.toList.dropWhile (fun c => decide (c ∈ setCookieChars))
    ∧ cleanFragment "Set-Cookie: token=abc; Path=/" = "n=abc"
    ∧ simpleCookieToCookieStr items =
        items.foldr (fun it r => cleanFragment it ++ "; " ++ r) ""
    ∧ (items ≠ [] → ∃ p, simpleCookieToCookieStr items = p ++ "; ") := by
  refine ⟨pyLstrip_eq_dropWhile _ _, rfl, ?_, ?_⟩
  · unfold simpleCookieToCookieStr
    rw [cookieStr_foldr]
    simp
  · intro hne
    rcases List.eq_nil_or_concat items with rfl | ⟨l2, a, rfl⟩
    · exact absurd rfl hne
    · refine ⟨(l2.foldl (fun a it => a ++ cleanFragment it ++ "; ") "") ++ cleanFragment a, ?_⟩
      unfold simpleCookieToCookieStr
      rw [List.concat_eq_append, List.foldl_append]
      rw [List.foldl_cons, List.foldl_nil]

/-- Witness for C10 at a concrete morsel list: the single cookie named
`token` assembles to exactly `n=abc; `, which indeed ends in `; `. -/
theorem cookie_lstrip_charset_witness :
    (["Set-Cookie: token=abc; Path=/"] : List String) ≠ []
    ∧ (∃ p, simpleCookieToCookieStr ["Set-Cookie: token=abc; Path=/"] = p ++ "; ")
    ∧ simpleCookieToCookieStr ["Set-Cookie: token=abc; Path=/"] = "n=abc; " :=
  ⟨by simp,
   (cookie_lstrip_charset ["Set-Cookie: token=abc; Path=/"] "x").2.2.2 (by simp),
   rfl⟩

end Pycloudmusic
